import Mathlib

/-!
LTC2942 gas-gauge driver: a shallow embedding.

This file embeds `src/LTC2942.c` (a register-level driver for the Linear
Technology LTC2942 coulomb counter) into Lean 4 and proves properties of the
driver operations.

The underlying I2C transport (`HAL_I2C_readWrite`, declared in the external
`hal_functions.h`) and the delay primitive (`usleep`) are external
collaborators of the driver; they are modelled as an oracle (`Bus`) that
fixes, per bus transaction, whether the transaction succeeds, and which byte a
failed read deposits in the buffer of the caller.  A successful read delivers
the byte stored in the register file of the chip; a successful write stores
the byte.  The driver functions are translated statement by statement, with
machine bytes as `Nat` values reduced `% 256` exactly where the C types
truncate.

Every bus transaction and every delay call is also recorded in an event
trace, so that ordering properties (settling delays between register
accesses, the shutdown window of the accumulator reset) can be stated.
-/

namespace LTC2942

/-! ## Register addresses and command codes (from `src/LTC2942.c`) -/

def STATUS_REG : Nat := 0x00
def CONTROL_REG : Nat := 0x01
def ACCUM_CHARGE_MSB_REG : Nat := 0x02
def ACCUM_CHARGE_LSB_REG : Nat := 0x03
def VOLTAGE_MSB_REG : Nat := 0x08
def VOLTAGE_LSB_REG : Nat := 0x09
def TEMPERATURE_MSB_REG : Nat := 0x0C
def TEMPERATURE_LSB_REG : Nat := 0x0D

def DEVICE_ID : Nat := 0x00

def AUTOMATIC_MODE : Nat := 0xC0
def MANUAL_VOLTAGE : Nat := 0x80
def MANUAL_TEMPERATURE : Nat := 0x40
def SLEEP_MODE : Nat := 0x00

def PRESCALAR_M_1 : Nat := 0x00
def PRESCALAR_M_2 : Nat := 0x08
def PRESCALAR_M_4 : Nat := 0x10
def PRESCALAR_M_128 : Nat := 0x38

def ALERT_MODE : Nat := 0x04
def CHARGE_COMPLETE_MODE : Nat := 0x02
def DISABLE_ALCC_PIN : Nat := 0x00

def SHUTDOWN_MODE : Nat := 0x01

/-! ## Bus / transport model -/

/-- One observable event of the driver: a single-register read transaction, a
single-register write transaction, or a call of the delay primitive. -/
inductive Ev where
  | readReg (reg : Nat)
  | writeReg (reg : Nat) (val : Nat)
  | delay
deriving DecidableEq, Repr

/-- Modelled from the spec: the consumed bus-transport capability
(`HAL_I2C_readWrite` in `hal_functions.h`, outside this repository) performs
one addressed transaction and reports Ok or Fail.  `regs` is the byte
register file of the chip, `ok n` decides whether the n-th bus transaction of
the run succeeds, and `failData n` is the byte found in the buffer of the
caller after a failed n-th read transaction (the HAL may leave the previous
contents of the buffer, or garbage; the oracle covers both). -/
structure Bus where
  regs : Nat → Nat
  ok : Nat → Bool
  failData : Nat → Nat

/-- The machine state threaded through the driver: chip/bus state, the number
of bus transactions issued so far, and the event trace. -/
structure S where
  bus : Bus
  k : Nat
  trace : List Ev

/-- Initial state over a bus. -/
def initS (b : Bus) : S := ⟨b, 0, []⟩

/-- The byte delivered by the n-th transaction of bus `b` when it reads
register `reg`: the register byte on success, the oracle byte on failure. -/
def deliveredAt (b : Bus) (n reg : Nat) : Nat :=
  if b.ok n then b.regs reg % 256 else b.failData n % 256

/-- A read transaction (write the register address, read one byte back).
The register file of the chip holds bytes, so the delivered value is `% 256`
(the buffer is a `uint8_t` in C). -/
def halRead (reg : Nat) (s : S) : (Nat × Bool) × S :=
  ((deliveredAt s.bus s.k reg, s.bus.ok s.k),
   { s with k := s.k + 1, trace := s.trace ++ [Ev.readReg reg] })

/-- A write transaction (write the pair `[reg, v]`).  On success the register
file is updated; on failure it is unchanged. -/
def halWrite (reg v : Nat) (s : S) : Bool × S :=
  let okv := s.bus.ok s.k
  let regs2 : Nat → Nat :=
    if okv then (fun r => if r = reg then v else s.bus.regs r) else s.bus.regs
  (okv,
   { s with bus := { s.bus with regs := regs2 },
            k := s.k + 1, trace := s.trace ++ [Ev.writeReg reg v] })

/-- The delay primitive `usleep`, recorded in the trace. -/
def usleep (s : S) : S := { s with trace := s.trace ++ [Ev.delay] }

/-! ## The driver functions (translated from `src/LTC2942.c`) -/

/-- Translation of `ltc_readRegister(id, reg, res)`: one combined
write-then-read bus transaction; returns the delivered byte and the success
flag of the HAL. -/
def ltc_readRegister (reg : Nat) (s : S) : (Nat × Bool) × S :=
  halRead reg s

/-- Translation of `ltc_writeRegister(id, reg, res)`: writes the two-byte
sequence `[reg, res]` as one bus transaction.  The value parameter is a
`uint8_t`, so it is truncated `% 256` at the call boundary. -/
def ltc_writeRegister (reg v : Nat) (s : S) : Bool × S :=
  halWrite reg (v % 256) s

/-- Translation of `ltc_readDeviceID(id)`: reads the status register into a
zero-initialised buffer and returns `(res & 0xC0) == DEVICE_ID`.  Note that
the C code discards the success flag of `ltc_readRegister`. -/
def ltc_readDeviceID (s : S) : Bool × S :=
  let rd := ltc_readRegister STATUS_REG s
  let res := rd.1.1
  (decide ((res &&& 0xC0) = DEVICE_ID), rd.2)

/-- Translation of `ltc_init(id)`: writes the fixed byte `0xC8` to the
control register, then delays once. -/
def ltc_init (s : S) : S :=
  let w := ltc_writeRegister CONTROL_REG 0xC8 s
  usleep w.2

/-- Translation of `ltc_reset_charge(id)`: read the control register, set the
shutdown bit, zero both accumulator registers, restore the control register.
No delay calls occur in this function in the C source. -/
def ltc_reset_charge (s : S) : S :=
  let rd := ltc_readRegister CONTROL_REG s
  let reg_save := rd.1.1
  let w1 := ltc_writeRegister CONTROL_REG (reg_save ||| SHUTDOWN_MODE) rd.2
  let w2 := ltc_writeRegister ACCUM_CHARGE_MSB_REG 0x00 w1.2
  let w3 := ltc_writeRegister ACCUM_CHARGE_LSB_REG 0x00 w2.2
  let w4 := ltc_writeRegister CONTROL_REG reg_save w3.2
  w4.2

/-- Translation of `ltc_code_to_voltage(id, voltage)`: read the MSB register,
delay, read the LSB register, delay, assemble `(adc_code[1] << 8) |
adc_code[0]` into the `uint16_t` output (truncated `% 65536` by the C type),
return `res1 && res2`. -/
def ltc_code_to_voltage (s : S) : (Nat × Bool) × S :=
  let rd1 := ltc_readRegister VOLTAGE_MSB_REG s
  let s1 := usleep rd1.2
  let rd2 := ltc_readRegister VOLTAGE_LSB_REG s1
  let s2 := usleep rd2.2
  let voltage := ((rd1.1.1 <<< 8) ||| rd2.1.1) % 65536
  ((voltage, rd1.1.2 && rd2.1.2), s2)

/-- Reinterpretation of a 16-bit unsigned value as a twos-complement
`int16_t` (the C assignment of a `uint16_t` expression through an `int16_t`
pointer in `ltc_temp`). -/
def toInt16 (n : Nat) : Int :=
  if n % 65536 < 32768 then ((n % 65536 : Nat) : Int)
  else ((n % 65536 : Nat) : Int) - 65536

/-- Translation of `ltc_temp(id, temperature)`: read the MSB register, delay,
read the LSB register, delay, assemble the 16-bit code and store it through
an `int16_t` pointer (twos-complement reinterpretation), return
`res1 & res2`. -/
def ltc_temp (s : S) : (Int × Bool) × S :=
  let rd1 := ltc_readRegister TEMPERATURE_MSB_REG s
  let s1 := usleep rd1.2
  let rd2 := ltc_readRegister TEMPERATURE_LSB_REG s1
  let s2 := usleep rd2.2
  let temperature := toInt16 ((rd1.1.1 <<< 8) ||| rd2.1.1)
  ((temperature, rd1.1.2 && rd2.1.2), s2)

/-- Translation of `ltc_capacity(id, cap)`: read the MSB register, delay,
read the LSB register, delay, assemble `(adc_code[1] << 8) | adc_code[0]`
into the `uint16_t` output, return `res1 & res2`. -/
def ltc_capacity (s : S) : (Nat × Bool) × S :=
  let rd1 := ltc_readRegister ACCUM_CHARGE_MSB_REG s
  let s1 := usleep rd1.2
  let rd2 := ltc_readRegister ACCUM_CHARGE_LSB_REG s1
  let s2 := usleep rd2.2
  let cap := ((rd1.1.1 <<< 8) ||| rd2.1.1) % 65536
  ((cap, rd1.1.2 && rd2.1.2), s2)

/-! ## Auxiliary notions for the statements -/

/-- A bus whose transactions all succeed, over a given register file (the
mock transport of the spec: the chip as a byte array indexed by register
address). -/
def okAllBus (regs : Nat → Nat) : Bus :=
  ⟨regs, fun _ => true, fun _ => 0⟩

/-- A bus whose transactions all fail; a failed read leaves the buffer of
the caller holding the byte `d`. -/
def failAllBus (regs : Nat → Nat) (d : Nat) : Bus :=
  ⟨regs, fun _ => false, fun _ => d⟩

/-- A register file holding `m` in register `mr`, `l` in register `lr` and
zero elsewhere. -/
def pairRegs (mr lr m l : Nat) : Nat → Nat :=
  fun r => if r = mr then m else if r = lr then l else 0

/-- A concrete register file with control register `0xAA` (an arbitrary
pattern with the shutdown bit clear) and `0x33` elsewhere. -/
def cRegs : Nat → Nat :=
  fun r => if r = CONTROL_REG then 0xAA else 0x33

/-- Replay the control-register value through a list of events: the value the
control register holds after the events, starting from `c`. -/
def controlAfter (c : Nat) : List Ev → Nat
  | [] => c
  | Ev.writeReg r v :: t => controlAfter (if r = CONTROL_REG then v else c) t
  | _ :: t => controlAfter c t

/-! ## Shared helper lemmas -/

/-- Big-endian assembly of two bytes coincides with `256 * MSB + LSB`. -/
theorem assemble_eq (m l : Nat) (hl : l < 256) : (m <<< 8) ||| l = 256 * m + l := by
  rw [Nat.shiftLeft_eq]
  show m * 2 ^ 8 ||| l = 256 * m + l
  rw [Nat.mul_comm m (2 ^ 8)]
  rw [← Nat.mul_add_lt_is_or hl]

end LTC2942

namespace LTC2942

/-- Claim C1 (code bug): with a transport that fails the status-register read
and leaves the zero-initialised buffer holding `0x00`, `ltc_readDeviceID`
still returns `true`: the C code discards the success flag of the read, and
the masked buffer `0x00 &&& 0xC0` equals `DEVICE_ID = 0x00`.  The claim and
the spec require `false` on a failed read. -/
theorem ltc_readDeviceID_true_on_failed_read :
    (failAllBus (fun _ => 0xFF) 0).ok 0 = false
  ∧ (ltc_readDeviceID (initS (failAllBus (fun _ => 0xFF) 0))).1 = true :=
  ⟨rfl, rfl⟩

/-- Claim C2: for each of the three measurement operations, the returned
success flag equals the logical AND of the outcomes of the two individual
register-read transactions (the MSB read is transaction `s.k`, the LSB read
is transaction `s.k + 1`), over every transport oracle. -/
theorem measurement_flag_is_and_of_read_outcomes (s : S) :
    (ltc_code_to_voltage s).1.2 = (s.bus.ok s.k && s.bus.ok (s.k + 1))
  ∧ (ltc_temp s).1.2 = (s.bus.ok s.k && s.bus.ok (s.k + 1))
  ∧ (ltc_capacity s).1.2 = (s.bus.ok s.k && s.bus.ok (s.k + 1)) := by
  refine ⟨?_, ?_, ?_⟩ <;>
    simp [ltc_code_to_voltage, ltc_temp, ltc_capacity, ltc_readRegister, halRead, usleep]

/-- Claim C3, counterexample: `ltc_init` writes the byte `0xC8`, whose
prescaler field (`& 0x38`) is not the M=4 encoding `0x10` and whose ALCC
field (`& 0x06`) is not the charge-complete encoding `0x02`; the field
combination named by the claim encodes `0xD2`, not `0xC8`. -/
theorem ltc_init_byte_is_not_prescaler_m4 :
    (ltc_init (initS (okAllBus cRegs))).bus.regs CONTROL_REG = 0xC8
  ∧ 0xC8 &&& 0x38 ≠ PRESCALAR_M_4
  ∧ 0xC8 &&& 0x06 ≠ CHARGE_COMPLETE_MODE
  ∧ AUTOMATIC_MODE ||| PRESCALAR_M_4 ||| DISABLE_ALCC_PIN ||| CHARGE_COMPLETE_MODE = 0xD2
  ∧ (0xD2 : Nat) ≠ 0xC8 :=
  ⟨rfl, by decide, by decide, by decide, by decide⟩

/-- Claim C3, amended: `ltc_init` writes to the control register the single
fixed byte `0xC8`, which decodes as automatic mode (`0xC0`), prescaler M=2
(`0x08`), ALCC pin disabled (`0x00`), shutdown bit clear — despite the
comment `M = 4` in the C source next to the write. -/
theorem ltc_init_writes_automatic_m2_alcc_disabled (regs : Nat → Nat) :
    (ltc_init (initS (okAllBus regs))).bus.regs CONTROL_REG
      = AUTOMATIC_MODE ||| PRESCALAR_M_2 ||| DISABLE_ALCC_PIN
  ∧ (ltc_init (initS (okAllBus regs))).trace = [Ev.writeReg CONTROL_REG 0xC8, Ev.delay]
  ∧ 0xC8 &&& 0xC0 = AUTOMATIC_MODE
  ∧ 0xC8 &&& 0x38 = PRESCALAR_M_2
  ∧ 0xC8 &&& 0x06 = DISABLE_ALCC_PIN
  ∧ 0xC8 &&& SHUTDOWN_MODE = 0 := by
  refine ⟨?_, ?_, by decide, by decide, by decide, by decide⟩ <;>
    simp [ltc_init, ltc_writeRegister, halWrite, usleep, initS, okAllBus, CONTROL_REG,
          AUTOMATIC_MODE, PRESCALAR_M_2, DISABLE_ALCC_PIN]

/-- Claim C4, counterexample: against an always-succeeding transport, the
trace of `ltc_reset_charge` consists of five back-to-back register accesses
and contains no delay event at all, so the delay primitive is not invoked
between every adjacent pair of register accesses of the reset sequence. -/
theorem ltc_reset_charge_trace_has_no_delay :
    (ltc_reset_charge (initS (okAllBus cRegs))).trace
      = [Ev.readReg CONTROL_REG, Ev.writeReg CONTROL_REG 0xAB,
         Ev.writeReg ACCUM_CHARGE_MSB_REG 0, Ev.writeReg ACCUM_CHARGE_LSB_REG 0,
         Ev.writeReg CONTROL_REG 0xAA]
  ∧ Ev.delay ∉ (ltc_reset_charge (initS (okAllBus cRegs))).trace := by
  refine ⟨rfl, by decide⟩

/-- Claim C4, amended: in every multi-register measurement read the delay
primitive is invoked (once) between the MSB register access and the LSB
register access, and once after the LSB access; the reset sequence, in
contrast, issues its five register accesses with no delay invocation between
any adjacent pair. -/
theorem settling_delay_between_measurement_reads (s : S) :
    ((ltc_code_to_voltage s).2.trace
       = s.trace ++ [Ev.readReg VOLTAGE_MSB_REG, Ev.delay,
                     Ev.readReg VOLTAGE_LSB_REG, Ev.delay])
  ∧ ((ltc_temp s).2.trace
       = s.trace ++ [Ev.readReg TEMPERATURE_MSB_REG, Ev.delay,
                     Ev.readReg TEMPERATURE_LSB_REG, Ev.delay])
  ∧ ((ltc_capacity s).2.trace
       = s.trace ++ [Ev.readReg ACCUM_CHARGE_MSB_REG, Ev.delay,
                     Ev.readReg ACCUM_CHARGE_LSB_REG, Ev.delay])
  ∧ (∃ x, (ltc_reset_charge s).trace
       = s.trace ++ [Ev.readReg CONTROL_REG,
                     Ev.writeReg CONTROL_REG ((x ||| SHUTDOWN_MODE) % 256),
                     Ev.writeReg ACCUM_CHARGE_MSB_REG 0,
                     Ev.writeReg ACCUM_CHARGE_LSB_REG 0,
                     Ev.writeReg CONTROL_REG (x % 256)]) := by
  refine ⟨?_, ?_, ?_, ⟨deliveredAt s.bus s.k CONTROL_REG, ?_⟩⟩ <;>
    simp [ltc_code_to_voltage, ltc_temp, ltc_capacity, ltc_reset_charge,
          ltc_readRegister, ltc_writeRegister, halRead, halWrite, usleep]

/-- Claim C5: against an always-succeeding transport over a byte register
file, `ltc_reset_charge` leaves the charge-accumulator MSB and LSB registers
equal to `0x00` and the control register equal to exactly its initial
value. -/
theorem ltc_reset_charge_clears_accumulator_restores_control (regs : Nat → Nat)
    (h : regs CONTROL_REG < 256) :
    (ltc_reset_charge (initS (okAllBus regs))).bus.regs ACCUM_CHARGE_MSB_REG = 0
  ∧ (ltc_reset_charge (initS (okAllBus regs))).bus.regs ACCUM_CHARGE_LSB_REG = 0
  ∧ (ltc_reset_charge (initS (okAllBus regs))).bus.regs CONTROL_REG = regs CONTROL_REG := by
  have h1 : regs 1 < 256 := h
  simp [ltc_reset_charge, ltc_readRegister, ltc_writeRegister, halRead, halWrite,
        deliveredAt, initS, okAllBus, CONTROL_REG, ACCUM_CHARGE_MSB_REG,
        ACCUM_CHARGE_LSB_REG, SHUTDOWN_MODE, Nat.mod_eq_of_lt h1]

/-- Witness for claim C5, at the concrete register file `cRegs` whose control
register holds `0xAA`. -/
theorem ltc_reset_charge_clears_accumulator_witness :
    cRegs CONTROL_REG < 256
  ∧ ((ltc_reset_charge (initS (okAllBus cRegs))).bus.regs ACCUM_CHARGE_MSB_REG = 0
  ∧ (ltc_reset_charge (initS (okAllBus cRegs))).bus.regs ACCUM_CHARGE_LSB_REG = 0
  ∧ (ltc_reset_charge (initS (okAllBus cRegs))).bus.regs CONTROL_REG = cRegs CONTROL_REG)
  ∧ cRegs CONTROL_REG = 0xAA :=
  ⟨by decide, ltc_reset_charge_clears_accumulator_restores_control cRegs (by decide), rfl⟩

/-- Claim C6: each measurement operation assembles its result big-endian,
`256 * MSB + LSB`, from the two register bytes (for `ltc_temp`, the same
16-bit code is then reinterpreted as an `int16_t`). -/
theorem measurement_assembly_big_endian (m l : Nat) (hm : m < 256) (hl : l < 256) :
    (ltc_code_to_voltage
        (initS (okAllBus (pairRegs VOLTAGE_MSB_REG VOLTAGE_LSB_REG m l)))).1.1
      = 256 * m + l
  ∧ (ltc_capacity
        (initS (okAllBus (pairRegs ACCUM_CHARGE_MSB_REG ACCUM_CHARGE_LSB_REG m l)))).1.1
      = 256 * m + l
  ∧ (ltc_temp
        (initS (okAllBus (pairRegs TEMPERATURE_MSB_REG TEMPERATURE_LSB_REG m l)))).1.1
      = toInt16 (256 * m + l) := by
  have hlt : 256 * m + l < 65536 := by omega
  refine ⟨?_, ?_, ?_⟩ <;>
    simp [ltc_code_to_voltage, ltc_capacity, ltc_temp, ltc_readRegister, halRead,
          deliveredAt, usleep, initS, okAllBus, pairRegs,
          VOLTAGE_MSB_REG, VOLTAGE_LSB_REG, ACCUM_CHARGE_MSB_REG, ACCUM_CHARGE_LSB_REG,
          TEMPERATURE_MSB_REG, TEMPERATURE_LSB_REG,
          Nat.mod_eq_of_lt hm, Nat.mod_eq_of_lt hl, assemble_eq m l hl,
          Nat.mod_eq_of_lt hlt]

/-- Witness for claim C6, the byte-order regression instance: MSB byte
`0x12` and LSB byte `0x34` assemble to `0x1234`. -/
theorem measurement_assembly_big_endian_witness :
    (0x12 : Nat) < 256 ∧ (0x34 : Nat) < 256
  ∧ (ltc_code_to_voltage
        (initS (okAllBus (pairRegs VOLTAGE_MSB_REG VOLTAGE_LSB_REG 0x12 0x34)))).1.1
      = 0x1234 := by
  refine ⟨by decide, by decide, ?_⟩
  have h := (measurement_assembly_big_endian 0x12 0x34 (by decide) (by decide)).1
  simpa using h

/-- Claim C7: against an always-succeeding transport, the reset trace is the
fixed five-access sequence in which the shutdown-setting control write
(index 1) precedes both accumulator writes (indices 2 and 3) and the restore
write (index 4) follows them; replaying the control register through the
trace shows that at both accumulator writes the control register holds
`c ||| SHUTDOWN_MODE`, whose shutdown bit is set. -/
theorem accumulator_writes_within_shutdown_window (regs : Nat → Nat)
    (h : regs CONTROL_REG < 256) :
    ((ltc_reset_charge (initS (okAllBus regs))).trace
      = [Ev.readReg CONTROL_REG,
         Ev.writeReg CONTROL_REG (regs CONTROL_REG ||| SHUTDOWN_MODE),
         Ev.writeReg ACCUM_CHARGE_MSB_REG 0,
         Ev.writeReg ACCUM_CHARGE_LSB_REG 0,
         Ev.writeReg CONTROL_REG (regs CONTROL_REG)])
  ∧ controlAfter (regs CONTROL_REG)
      ((ltc_reset_charge (initS (okAllBus regs))).trace.take 2)
      = regs CONTROL_REG ||| SHUTDOWN_MODE
  ∧ controlAfter (regs CONTROL_REG)
      ((ltc_reset_charge (initS (okAllBus regs))).trace.take 3)
      = regs CONTROL_REG ||| SHUTDOWN_MODE
  ∧ (regs CONTROL_REG ||| SHUTDOWN_MODE) &&& SHUTDOWN_MODE = SHUTDOWN_MODE := by
  have h1 : regs 1 < 256 := h
  have h2 : regs 1 ||| 1 < 256 := @Nat.or_lt_two_pow (regs 1) 1 8 h1 (by decide)
  have htr : (ltc_reset_charge (initS (okAllBus regs))).trace
      = [Ev.readReg CONTROL_REG,
         Ev.writeReg CONTROL_REG (regs CONTROL_REG ||| SHUTDOWN_MODE),
         Ev.writeReg ACCUM_CHARGE_MSB_REG 0,
         Ev.writeReg ACCUM_CHARGE_LSB_REG 0,
         Ev.writeReg CONTROL_REG (regs CONTROL_REG)] := by
    simp [ltc_reset_charge, ltc_readRegister, ltc_writeRegister, halRead, halWrite,
          deliveredAt, initS, okAllBus, CONTROL_REG, ACCUM_CHARGE_MSB_REG,
          ACCUM_CHARGE_LSB_REG, SHUTDOWN_MODE, Nat.mod_eq_of_lt h1, Nat.mod_eq_of_lt h2]
  refine ⟨htr, ?_, ?_, ?_⟩
  · rw [htr]; simp [controlAfter, CONTROL_REG]
  · rw [htr]
    simp [controlAfter, CONTROL_REG, ACCUM_CHARGE_MSB_REG, ACCUM_CHARGE_LSB_REG]
  · simp [SHUTDOWN_MODE, Nat.and_one_is_mod]

/-- Witness for claim C7, at the concrete register file `cRegs` whose control
register holds `0xAA`. -/
theorem accumulator_writes_within_shutdown_window_witness :
    cRegs CONTROL_REG < 256
  ∧ (((ltc_reset_charge (initS (okAllBus cRegs))).trace
      = [Ev.readReg CONTROL_REG,
         Ev.writeReg CONTROL_REG (cRegs CONTROL_REG ||| SHUTDOWN_MODE),
         Ev.writeReg ACCUM_CHARGE_MSB_REG 0,
         Ev.writeReg ACCUM_CHARGE_LSB_REG 0,
         Ev.writeReg CONTROL_REG (cRegs CONTROL_REG)])
  ∧ controlAfter (cRegs CONTROL_REG)
      ((ltc_reset_charge (initS (okAllBus cRegs))).trace.take 2)
      = cRegs CONTROL_REG ||| SHUTDOWN_MODE
  ∧ controlAfter (cRegs CONTROL_REG)
      ((ltc_reset_charge (initS (okAllBus cRegs))).trace.take 3)
      = cRegs CONTROL_REG ||| SHUTDOWN_MODE
  ∧ (cRegs CONTROL_REG ||| SHUTDOWN_MODE) &&& SHUTDOWN_MODE = SHUTDOWN_MODE) :=
  ⟨by decide, accumulator_writes_within_shutdown_window cRegs (by decide)⟩

/-- Claim C8: on the mock byte-array transport, writing byte `v` to a valid
register address `r` and then reading register `r` back delivers exactly
`(v, success)`. -/
theorem write_then_read_roundtrip (regs : Nat → Nat) (r v : Nat)
    (_hr : r < 16) (hv : v < 256) :
    (ltc_readRegister r (ltc_writeRegister r v (initS (okAllBus regs))).2).1 = (v, true) := by
  simp [ltc_readRegister, ltc_writeRegister, halRead, halWrite, deliveredAt,
        initS, okAllBus, Nat.mod_eq_of_lt hv]

/-- Witness for claim C8, at register `0x08` and byte `0xAB`. -/
theorem write_then_read_roundtrip_witness :
    (0x08 : Nat) < 16 ∧ (0xAB : Nat) < 256
  ∧ (ltc_readRegister 0x08
       (ltc_writeRegister 0x08 0xAB (initS (okAllBus cRegs))).2).1 = (0xAB, true) :=
  ⟨by decide, by decide, write_then_read_roundtrip cRegs 0x08 0xAB (by decide) (by decide)⟩

/-- Claim C9: over every transport oracle — including oracles that fail one
or both reads — each measurement operation performs its full four-event
sequence, and the output written is the assembly of the two delivered bytes,
computed without consulting the success flags; likewise the reset sequence
always performs all five register accesses. -/
theorem no_early_abort_and_unconditional_output (s : S) :
    (ltc_code_to_voltage s).1.1
      = ((deliveredAt s.bus s.k VOLTAGE_MSB_REG <<< 8)
          ||| deliveredAt s.bus (s.k + 1) VOLTAGE_LSB_REG) % 65536
  ∧ (ltc_temp s).1.1
      = toInt16 ((deliveredAt s.bus s.k TEMPERATURE_MSB_REG <<< 8)
          ||| deliveredAt s.bus (s.k + 1) TEMPERATURE_LSB_REG)
  ∧ (ltc_capacity s).1.1
      = ((deliveredAt s.bus s.k ACCUM_CHARGE_MSB_REG <<< 8)
          ||| deliveredAt s.bus (s.k + 1) ACCUM_CHARGE_LSB_REG) % 65536
  ∧ (ltc_code_to_voltage s).2.trace
      = s.trace ++ [Ev.readReg VOLTAGE_MSB_REG, Ev.delay,
                    Ev.readReg VOLTAGE_LSB_REG, Ev.delay]
  ∧ (ltc_temp s).2.trace
      = s.trace ++ [Ev.readReg TEMPERATURE_MSB_REG, Ev.delay,
                    Ev.readReg TEMPERATURE_LSB_REG, Ev.delay]
  ∧ (ltc_capacity s).2.trace
      = s.trace ++ [Ev.readReg ACCUM_CHARGE_MSB_REG, Ev.delay,
                    Ev.readReg ACCUM_CHARGE_LSB_REG, Ev.delay]
  ∧ (∃ x, (ltc_reset_charge s).trace
       = s.trace ++ [Ev.readReg CONTROL_REG,
                     Ev.writeReg CONTROL_REG ((x ||| SHUTDOWN_MODE) % 256),
                     Ev.writeReg ACCUM_CHARGE_MSB_REG 0,
                     Ev.writeReg ACCUM_CHARGE_LSB_REG 0,
                     Ev.writeReg CONTROL_REG (x % 256)]) := by
  refine ⟨?_, ?_, ?_, ?_, ?_, ?_, ⟨deliveredAt s.bus s.k CONTROL_REG, ?_⟩⟩ <;>
    simp [ltc_code_to_voltage, ltc_temp, ltc_capacity, ltc_reset_charge,
          ltc_readRegister, ltc_writeRegister, halRead, halWrite, usleep]

/-- Claim C10: when the temperature MSB byte is `0x80` or above, the value
stored through the `int16_t` output of `ltc_temp` is the raw 16-bit code
minus 65536, a negative value. -/
theorem ltc_temp_negative_for_high_msb (m l : Nat)
    (hm : m < 256) (hl : l < 256) (hneg : 0x80 ≤ m) :
    (ltc_temp (initS (okAllBus (pairRegs TEMPERATURE_MSB_REG TEMPERATURE_LSB_REG m l)))).1.1
      = (256 * (m : Int) + (l : Int)) - 65536
  ∧ (ltc_temp (initS (okAllBus (pairRegs TEMPERATURE_MSB_REG TEMPERATURE_LSB_REG m l)))).1.1
      < 0 := by
  have hraw : (ltc_temp
      (initS (okAllBus (pairRegs TEMPERATURE_MSB_REG TEMPERATURE_LSB_REG m l)))).1.1
      = toInt16 (256 * m + l) := by
    simp [ltc_temp, ltc_readRegister, halRead, deliveredAt, usleep, initS, okAllBus,
          pairRegs, TEMPERATURE_MSB_REG, TEMPERATURE_LSB_REG,
          Nat.mod_eq_of_lt hm, Nat.mod_eq_of_lt hl, assemble_eq m l hl]
  have hlt : 256 * m + l < 65536 := by omega
  have hval : toInt16 (256 * m + l) = (256 * (m : Int) + (l : Int)) - 65536 := by
    unfold toInt16
    rw [Nat.mod_eq_of_lt hlt]
    rw [if_neg (by omega)]
    push_cast
    ring
  refine ⟨by rw [hraw, hval], ?_⟩
  rw [hraw, hval]
  have : (m : Int) ≤ 255 := by exact_mod_cast Nat.le_of_lt_succ hm
  have : (l : Int) ≤ 255 := by exact_mod_cast Nat.le_of_lt_succ hl
  omega

/-- Witness for claim C10, at MSB byte `0x80` and LSB byte `0x00`: the stored
temperature code is `-32768`. -/
theorem ltc_temp_negative_for_high_msb_witness :
    (0x80 : Nat) < 256 ∧ (0x00 : Nat) < 256 ∧ (0x80 : Nat) ≤ 0x80
  ∧ (ltc_temp
       (initS (okAllBus (pairRegs TEMPERATURE_MSB_REG TEMPERATURE_LSB_REG 0x80 0x00)))).1.1
      = -32768 := by
  refine ⟨by decide, by decide, by decide, ?_⟩
  have h := (ltc_temp_negative_for_high_msb 0x80 0x00 (by decide) (by decide) (by decide)).1
  rw [h]
  norm_num

end LTC2942
